import Mathlib

/-!
# Verification of the yew server-side rendering bundle

A shallow embedding of `packages/yew/src/server_bundle/mod.rs`,
`packages/yew/src/server_renderer.rs` and `packages/yew/src/renderer.rs`:
the suspense-aware streaming HTML serializer (`SsrSink`), the virtual node
tree it consumes, the escaping functions used for text and attribute
values, and the process-wide panic-hook installation.

Modelling conventions:
* Byte output (`Vec<u8>` / `dyn Write`) is modelled as a `List String` of
  chunks, one chunk per write; the final document is `String.join` of the
  chunks.  Chunk boundaries are not observable in the produced string.
* Rust panics (including `debug_assert!` failures; the code is modelled as
  a debug build, where `debug_assertions` is on) are modelled as
  `Except.error` values of type `RenderPanic`.
* The single-threaded cooperative async model means an `.await` is just
  sequencing; `blocker.unblock().await` has no effect on the sink state.
-/

/-! ## Escaping (models the external `html_escape` crate)

`SsrSink::push_text` uses `html_escape::encode_text_to_writer`, which
escapes `&`, `<` and `>`;
`SsrSink::push_double_quoted_attr_value` uses
`html_escape::encode_double_quoted_attribute_to_writer`, which escapes
`&` and `"`. -/

/-- One character of `html_escape::encode_text`: `&` ↦ `&amp;`,
`<` ↦ `&lt;`, `>` ↦ `&gt;`, everything else unchanged. -/
def encodeTextChar (c : Char) : List Char :=
  if c = '&' then ['&', 'a', 'm', 'p', ';']
  else if c = '<' then ['&', 'l', 't', ';']
  else if c = '>' then ['&', 'g', 't', ';']
  else [c]

/-- `html_escape::encode_text` on a list of characters. -/
def encodeTextList : List Char → List Char
  | [] => []
  | c :: rest => encodeTextChar c ++ encodeTextList rest

/-- `html_escape::encode_text`, as used by `SsrSink::push_text`
(server_bundle/mod.rs:48-50). -/
def encode_text (s : String) : String := ⟨encodeTextList s.toList⟩

/-- One character of `html_escape::encode_double_quoted_attribute`:
`&` ↦ `&amp;`, `"` ↦ `&quot;`, everything else unchanged. -/
def encodeAttrChar (c : Char) : List Char :=
  if c = '&' then ['&', 'a', 'm', 'p', ';']
  else if c = '"' then ['&', 'q', 'u', 'o', 't', ';']
  else [c]

/-- `html_escape::encode_double_quoted_attribute` on a list of characters. -/
def encodeAttrList : List Char → List Char
  | [] => []
  | c :: rest => encodeAttrChar c ++ encodeAttrList rest

/-- `html_escape::encode_double_quoted_attribute`, as used by
`SsrSink::push_double_quoted_attr_value` (server_bundle/mod.rs:52-54). -/
def encode_double_quoted_attribute (s : String) : String := ⟨encodeAttrList s.toList⟩

/-- A standard HTML entity decoder: replaces the named entities
`&amp;` `&lt;` `&gt;` `&quot;` by the characters they denote and copies
everything else verbatim. -/
def decodeHtmlList : List Char → List Char
  | '&' :: 'a' :: 'm' :: 'p' :: ';' :: rest => '&' :: decodeHtmlList rest
  | '&' :: 'l' :: 't' :: ';' :: rest => '<' :: decodeHtmlList rest
  | '&' :: 'g' :: 't' :: ';' :: rest => '>' :: decodeHtmlList rest
  | '&' :: 'q' :: 'u' :: 'o' :: 't' :: ';' :: rest => '"' :: decodeHtmlList rest
  | c :: rest => c :: decodeHtmlList rest
  | [] => []

/-- HTML-unescaping of a string. -/
def decodeHtml (s : String) : String := ⟨decodeHtmlList s.toList⟩

/-! ## The virtual node tree

`VNode` (virtual_dom/vnode.rs, not under src/; variants are taken from the
exhaustive match in `VNode::render_to_string`, server_bundle/mod.rs:105-121)
together with `VTag`'s inner shape (virtual_dom/vtag.rs, not under src/;
`VTagInner::Input` / `Textarea` / `Other` and the `value()` / `checked()`
accessors are taken from their uses in `VTag::render_to_string`,
server_bundle/mod.rs:164-219) and `VList` (virtual_dom/vlist.rs, not under
src/; a sequence of child nodes, server_bundle/mod.rs:127-133).

A component (`VComp`, virtual_dom/vcomp.rs) is rendered on the server by
creating a scope and rendering the view tree the component produces; the
scope may suspend instead of completing synchronously
(`SsrSink::push_suspended`).  The scope machinery (`crate::html::SsrScope`)
is not under src/, so a component is modelled by the data that matters to
the sink: whether its pre-render suspends, its debug type name (used by
the hydration markers) and the view tree it resolves to. -/

mutual

inductive VTagInner where
  | input : VTagInner
  | textarea : VTagInner
  | other (tag : String) (children : VList) : VTagInner

inductive VNode where
  | vtag (inner : VTagInner) (attributes : List (String × String))
      (value : Option String) (checked : Bool) : VNode
  | vtext (text : String) : VNode
  | vcomp (suspended : Bool) (type_name : String) (view : VNode) : VNode
  | vlist (children : VList) : VNode
  | vref : VNode
  | vportal : VNode
  | vsuspense (children : VNode) : VNode

inductive VList where
  | nil : VList
  | cons (head : VNode) (tail : VList) : VList

end

deriving instance DecidableEq for VTagInner, VNode, VList

/-- The tag name of a `VTag` (vtag.rs `VTag::tag`). -/
def VTagInner.tagName : VTagInner → String
  | .input => "input"
  | .textarea => "textarea"
  | .other tag _ => tag

/-- Modelled from the spec: the suspended unit of work held by a blocker.
`crate::html::SsrScope` is not under src/; for the sink it consists of the
component's debug type name and the view tree its resolution renders. -/
structure SsrScope where
  type_name : String
  view : VNode
deriving DecidableEq

/-- `type Blocker = (Vec<u8>, SsrScope)` (server_bundle/mod.rs:10): the
bytes buffered before the suspension point, paired with the suspended
scope. -/
abbrev Blocker := List String × SsrScope

/-- A Rust panic raised during server rendering. -/
inductive RenderPanic where
  /-- `panic!("VRef is not possible to be rendered in to a string.")`
  (server_bundle/mod.rs:116). -/
  | vrefPanic : RenderPanic
  /-- `debug_assert!(children.is_empty(), "{} cannot have any children!", tag)`
  (server_bundle/mod.rs:215). -/
  | voidChildren (tag : String) : RenderPanic
  /-- `debug_assert!(!unshelved_blockers.is_empty())` (server_bundle/mod.rs:74). -/
  | emptyShelf : RenderPanic
deriving DecidableEq

/-- The streaming sink (server_bundle/mod.rs:11-17): output destination,
scratch buffer, FIFO queue of current blockers and a stack of shelved
blocker queues (`Vec` used as a stack; the head of the list is the top of
the stack). -/
structure SsrSink where
  output : List String
  buffer : List String
  current_blockers : List Blocker
  queued_blockers : List (List Blocker)
  hydratable : Bool
deriving DecidableEq

/-- `SsrSink::new` (server_bundle/mod.rs:20-28). -/
def SsrSink.new (hydratable : Bool) : SsrSink :=
  { output := [], buffer := [], current_blockers := [], queued_blockers := [],
    hydratable := hydratable }

/-- One write through `SsrSink::output()` (server_bundle/mod.rs:30-36):
while the current-blockers queue is non-empty the bytes go to the scratch
buffer, otherwise directly to the output destination. -/
def SsrSink.pushChunk (w : SsrSink) (c : String) : SsrSink :=
  if w.current_blockers.isEmpty then { w with output := w.output ++ [c] }
  else { w with buffer := w.buffer ++ [c] }

/-- A sequence of writes through `SsrSink::output()`. -/
def SsrSink.pushChunks (w : SsrSink) (cs : List String) : SsrSink :=
  cs.foldl SsrSink.pushChunk w

/-- `SsrSink::push_str` (server_bundle/mod.rs:42-46). -/
def SsrSink.push_str (w : SsrSink) (s : String) : SsrSink := w.pushChunk s

/-- `SsrSink::push_text` (server_bundle/mod.rs:48-50): text-body escaping. -/
def SsrSink.push_text (w : SsrSink) (text : String) : SsrSink :=
  w.pushChunk (encode_text text)

/-- `SsrSink::push_double_quoted_attr_value` (server_bundle/mod.rs:52-54). -/
def SsrSink.push_double_quoted_attr_value (w : SsrSink) (attr : String) : SsrSink :=
  w.pushChunk (encode_double_quoted_attribute attr)

/-- `SsrSink::push_suspended` (server_bundle/mod.rs:56-59): detach the
scratch buffer and push it, with the suspended scope, onto the back of the
current-blockers queue. -/
def SsrSink.push_suspended (w : SsrSink) (scope : SsrScope) : SsrSink :=
  { w with buffer := [], current_blockers := w.current_blockers ++ [(w.buffer, scope)] }

/-! ## Hydration sentinel markers

`Collectable::write_open_tag` / `write_close_tag`
(server_bundle/mod.rs:230-258) wrap a start mark, an optional debug type
name and an end mark inside an HTML comment.  The mark strings
(`open_start_mark` / `close_start_mark` / `end_mark`, virtual_dom/mod.rs)
are not under src/ and are modelled from the spec: matching open/close
sentinel comment markers, carrying the component's debug type name in
non-optimized builds.  Each marker is emitted here as one chunk; the
source performs four/five consecutive `push_str` calls through the same
routing, producing the same bytes. -/

/-- The open sentinel marker of a suspense boundary. -/
def suspenseOpenMarker : String := "<!--" ++ "<?" ++ "?>" ++ "-->"

/-- The close sentinel marker of a suspense boundary. -/
def suspenseCloseMarker : String := "<!--" ++ "</?" ++ "?>" ++ "-->"

/-- The open sentinel marker of a server-rendered component instance. -/
def componentOpenMarker (type_name : String) : String :=
  "<!--" ++ "<[" ++ type_name ++ "]>" ++ "-->"

/-- The close sentinel marker of a server-rendered component instance. -/
def componentCloseMarker (type_name : String) : String :=
  "<!--" ++ "</[" ++ type_name ++ "]>" ++ "-->"

/-! ## Serialization of a tree through the sink -/

/-- Elements that cannot have any child elements
(`VOID_ELEMENTS`, server_bundle/mod.rs:158-161). -/
def VOID_ELEMENTS : List String :=
  ["area", "base", "br", "col", "embed", "hr", "img", "input", "link", "meta",
   "param", "source", "track", "wbr"]

/-- The chunks written by the attribute loop of `VTag::render_to_string`
(server_bundle/mod.rs:167-175, 187-191): per attribute a ` name` chunk,
then `="`, the escaped value, `"`. -/
def attrChunks (attrs : List (String × String)) : List String :=
  attrs.flatMap fun kv =>
    [" " ++ kv.1, "=\"", encode_double_quoted_attribute kv.2, "\""]

/-- The chunks written by the open-tag part of `VTag::render_to_string`
(server_bundle/mod.rs:165-193): `<tag`, then for an input element the
`value` attribute (if any) and a bare `checked` attribute (if set), then
all ordinary attributes, then `>`. -/
def vtagOpenChunks (inner : VTagInner) (attrs : List (String × String))
    (value : Option String) (checked : Bool) : List String :=
  ("<" ++ inner.tagName) ::
    ((match inner with
      | .input =>
          (match value with
           | some m => [" value", "=\"", encode_double_quoted_attribute m, "\""]
           | none => []) ++
          (if checked then [" checked"] else [])
      | _ => []) ++
     attrChunks attrs ++ [">"])

mutual

/-- `VNode::render_to_string` (server_bundle/mod.rs:98-123) together with
the per-variant implementations in the same file.  A suspended component
registers a blocker via `push_suspended`; a ready component renders its
view inline, wrapped in component sentinel markers when hydratable
(modelled from the spec: the scope's render-to-string,
`crate::html::SsrScope`, is not under src/).  The open-tag writes of
`VTag::render_to_string` are emitted via `vtagOpenChunks`; the chunk
sequence is the one the source writes.  The textarea value is rendered as
body text through `VText::new(m).render_to_string`, i.e. `push_text`. -/
def VNode.render_to_string : VNode → SsrSink → Except RenderPanic SsrSink
  | .vtag inner attrs value checked, w =>
    let w1 := w.pushChunks (vtagOpenChunks inner attrs value checked)
    match inner with
    | .input => .ok w1
    | .textarea =>
      let w2 := match value with
        | some m => w1.push_text m
        | none => w1
      .ok (w2.push_str "</textarea>")
    | .other tag children =>
      if VOID_ELEMENTS.contains tag then
        -- We don't write children of void elements nor closing tags.
        if children = .nil then .ok w1 else .error (.voidChildren tag)
      else
        match VList.render_to_string children w1 with
        | .error e => .error e
        | .ok w2 => .ok (w2.push_str ("</" ++ tag ++ ">"))
  | .vtext text, w => .ok (w.push_text text)
  | .vcomp suspended type_name view, w =>
    if suspended then
      .ok (w.push_suspended ⟨type_name, view⟩)
    else
      let w1 := if w.hydratable then w.push_str (componentOpenMarker type_name) else w
      match VNode.render_to_string view w1 with
      | .error e => .error e
      | .ok w2 =>
        .ok (if w.hydratable then w2.push_str (componentCloseMarker type_name) else w2)
  | .vlist children, w => VList.render_to_string children w
  | .vref, _ => .error .vrefPanic
  | .vportal, w => .ok w
  | .vsuspense children, w =>
    -- VSuspense::render_to_string (server_bundle/mod.rs:138-153)
    let w1 := if w.hydratable then w.push_str suspenseOpenMarker else w
    match VNode.render_to_string children w1 with
    | .error e => .error e
    | .ok w2 => .ok (if w.hydratable then w2.push_str suspenseCloseMarker else w2)

/-- `VList::render_to_string` (server_bundle/mod.rs:127-133): render each
child in order. -/
def VList.render_to_string : VList → SsrSink → Except RenderPanic SsrSink
  | .nil, w => .ok w
  | .cons head tail, w =>
    match VNode.render_to_string head w with
    | .error e => .error e
    | .ok w1 => VList.render_to_string tail w1

end

/-- Modelled from the spec: a resolved blocker's `SsrScope::render_to_string`
(`crate::html` is not under src/) renders the component's content through
the sink — its sentinel markers when hydratable, then its view tree. -/
def SsrScope.render_to_string (s : SsrScope) (w : SsrSink) : Except RenderPanic SsrSink :=
  let w1 := if w.hydratable then w.push_str (componentOpenMarker s.type_name) else w
  match VNode.render_to_string s.view w1 with
  | .error e => .error e
  | .ok w2 => .ok (if w.hydratable then w2.push_str (componentCloseMarker s.type_name) else w2)

/-- The terminal flush of `SsrSink::run_to_completion`
(server_bundle/mod.rs:79-80): take the residual scratch buffer and write
it through `SsrSink::output()` routing. -/
def SsrSink.finalFlush (w : SsrSink) : SsrSink :=
  let rest := w.buffer
  let w1 := { w with buffer := [] }
  if w1.current_blockers.isEmpty then { w1 with output := w1.output ++ rest }
  else { w1 with buffer := w1.buffer ++ rest }

/-- `SsrSink::run_to_completion` (server_bundle/mod.rs:61-81), exactly as
written: `if let Some((part, blocker)) = self.current_blockers.pop_front()`
— a single conditional, not a loop.  The popped blocker's detached prefix
is written directly to the output destination (not through `output()`
routing); `blocker.unblock().await` resolves the suspended work and has no
sink effect; the remaining current blockers are shelved before the blocker
renders; the shelved queue is restored only if the queue drained to empty;
finally the residual buffer is flushed through `output()` routing. -/
def SsrSink.run_to_completion (w : SsrSink) : Except RenderPanic SsrSink :=
  match w.current_blockers with
  | [] => .ok w.finalFlush
  | (part, blocker) :: remaining =>
    let w1 : SsrSink := { w with output := w.output ++ part, current_blockers := remaining }
    let w2 : SsrSink :=
      if w1.current_blockers.isEmpty then w1
      else { w1 with current_blockers := [],
                     queued_blockers := w1.current_blockers :: w1.queued_blockers }
    match blocker.render_to_string w2 with
    | .error e => .error e
    | .ok w3 =>
      if w3.current_blockers.isEmpty then
        match w3.queued_blockers with
        | [] => .ok w3.finalFlush
        | unshelved :: rest_q =>
          if unshelved.isEmpty then .error .emptyShelf
          else .ok (SsrSink.finalFlush
            { w3 with current_blockers := unshelved, queued_blockers := rest_q })
      else .ok w3.finalFlush

/-- `ServerRenderer::render_to_string` (server_renderer.rs:72-79): build a
fresh sink, render the root tree into it, then run the sink to
completion; the result is the final sink state. -/
def ServerRenderer.render_to_sink (root : VNode) (hydratable : Bool) :
    Except RenderPanic SsrSink :=
  match VNode.render_to_string root (SsrSink.new hydratable) with
  | .error e => .error e
  | .ok w => w.run_to_completion

/-- The chunks written to the output destination by a complete server
render pass. -/
def ServerRenderer.render_chunks (root : VNode) (hydratable : Bool) :
    Except RenderPanic (List String) :=
  (ServerRenderer.render_to_sink root hydratable).map SsrSink.output

/-- `ServerRenderer::render` (server_renderer.rs:63-69): the bytes written
to the destination, as a string. -/
def ServerRenderer.render (root : VNode) (hydratable : Bool) :
    Except RenderPanic String :=
  (ServerRenderer.render_chunks root hydratable).map String.join

/-! ## The naive single-pass synchronous serializer (spec side)

For the refinement claim, a second serializer written from the spec's
words: "a naive single-pass synchronous serializer over the same tree" —
plain pre-order, depth-first, left-to-right concatenation, with the same
markup rules (escaping, void elements, hydration markers) but no sink, no
buffering and no blockers. -/

mutual

/-- Modelled from the spec: the naive single-pass synchronous serializer
(spec §8.1), emitting the chunks of a node in document order. -/
def naiveNode : VNode → Bool → Except RenderPanic (List String)
  | .vtag inner attrs value checked, hyd =>
    let base := vtagOpenChunks inner attrs value checked
    match inner with
    | .input => .ok base
    | .textarea =>
      .ok (base ++ (match value with
        | some m => [encode_text m]
        | none => []) ++ ["</textarea>"])
    | .other tag children =>
      if VOID_ELEMENTS.contains tag then
        if children = .nil then .ok base else .error (.voidChildren tag)
      else
        match naiveList children hyd with
        | .error e => .error e
        | .ok cs => .ok (base ++ cs ++ ["</" ++ tag ++ ">"])
  | .vtext text, _ => .ok [encode_text text]
  | .vcomp _ type_name view, hyd =>
    match naiveNode view hyd with
    | .error e => .error e
    | .ok cs =>
      .ok (if hyd then
             componentOpenMarker type_name :: cs ++ [componentCloseMarker type_name]
           else cs)
  | .vlist children, hyd => naiveList children hyd
  | .vref, _ => .error .vrefPanic
  | .vportal, _ => .ok []
  | .vsuspense children, hyd =>
    match naiveNode children hyd with
    | .error e => .error e
    | .ok cs =>
      .ok (if hyd then suspenseOpenMarker :: cs ++ [suspenseCloseMarker] else cs)

/-- Modelled from the spec: the naive serializer on a child list. -/
def naiveList : VList → Bool → Except RenderPanic (List String)
  | .nil, _ => .ok []
  | .cons head tail, hyd =>
    match naiveNode head hyd with
    | .error e => .error e
    | .ok cs =>
      match naiveList tail hyd with
      | .error e => .error e
      | .ok cs' => .ok (cs ++ cs')

end

/-- The naive serializer's final string. -/
def naiveSerialize (root : VNode) (hydratable : Bool) : Except RenderPanic String :=
  (naiveNode root hydratable).map String.join

mutual

/-- No component in the tree suspends (so no `Suspense` boundary fails to
complete synchronously): rendering the tree never calls
`push_suspended`. -/
def VNode.noSuspend : VNode → Bool
  | .vtag inner _ _ _ =>
    match inner with
    | .other _ children => VList.noSuspend children
    | _ => true
  | .vtext _ => true
  | .vcomp suspended _ view => !suspended && VNode.noSuspend view
  | .vlist children => VList.noSuspend children
  | .vref => true
  | .vportal => true
  | .vsuspense children => VNode.noSuspend children

/-- No component in the child list suspends. -/
def VList.noSuspend : VList → Bool
  | .nil => true
  | .cons head tail => VNode.noSuspend head && VList.noSuspend tail

end

/-! ## Marker insertion (for comparing hydratable and plain output) -/

/-- A chunk that is one of the hydration sentinel markers. -/
def IsMarkerChunk (c : String) : Prop :=
  c = suspenseOpenMarker ∨ c = suspenseCloseMarker ∨
    (∃ tn, c = componentOpenMarker tn) ∨ (∃ tn, c = componentCloseMarker tn)

/-- `InsertOnly P xs ys`: `ys` is `xs` with some extra chunks inserted,
every inserted chunk satisfying `P`. -/
inductive InsertOnly (P : String → Prop) : List String → List String → Prop
  | nil : InsertOnly P [] []
  | keep (c : String) {xs ys : List String} :
      InsertOnly P xs ys → InsertOnly P (c :: xs) (c :: ys)
  | ins (c : String) {xs ys : List String} :
      P c → InsertOnly P xs ys → InsertOnly P xs (c :: ys)

/-! ## The panic hook (renderer.rs)

`std::panic::set_hook` mutates process-wide state; the flag
`PANIC_HOOK_IS_SET` records whether yew has already installed (or been
told about) a hook.  Modelled as explicit state passing: `installed` is
the hook currently installed through this module (`none` = untouched
process default), identified by a name string. -/

/-- The process-wide panic hook state: the hook installed through yew (if
any) and the `PANIC_HOOK_IS_SET` flag (renderer.rs:10-12). -/
structure PanicHookState where
  installed : Option String
  hook_is_set : Bool
deriving DecidableEq

/-- The state at process start: no hook installed by yew, flag unset. -/
def PanicHookState.init : PanicHookState := ⟨none, false⟩

/-- The default hook installed by `set_default_panic_hook`
(`console_error_panic_hook::hook`, renderer.rs:25). -/
def console_error_panic_hook : String := "console_error_panic_hook::hook"

/-- `set_custom_panic_hook` (renderer.rs:18-21): install the given hook
and set the flag. -/
def set_custom_panic_hook (hook : String) (_st : PanicHookState) : PanicHookState :=
  { installed := some hook, hook_is_set := true }

/-- `set_default_panic_hook` (renderer.rs:23-27): if the flag was not yet
set, set it and install the default hook; otherwise do nothing. -/
def set_default_panic_hook (st : PanicHookState) : PanicHookState :=
  if st.hook_is_set then st
  else { installed := some console_error_panic_hook, hook_is_set := true }

/-- The panic-hook effect of the entry point `Renderer::render`
(renderer.rs:90-93); the subsequent mounting does not touch the hook. -/
def Renderer.render_hook (st : PanicHookState) : PanicHookState :=
  set_default_panic_hook st

/-- The panic-hook effect of the entry point `Renderer::hydrate`
(renderer.rs:106-109). -/
def Renderer.hydrate_hook (st : PanicHookState) : PanicHookState :=
  set_default_panic_hook st

/-- Running `n` successive entry points (`Renderer::render`). -/
def runEntryPoints : Nat → PanicHookState → PanicHookState
  | 0, st => st
  | n + 1, st => runEntryPoints n (Renderer.render_hook st)

/-! ## Example trees -/

/-- A ready (non-suspending) component rendering
`<div>Hello, {name}!</div>` (the spec's end-to-end example and the
`test_props` test in vcomp.rs). -/
def exHelloChild (name : String) : VNode :=
  .vcomp false "Child"
    (.vtag (.other "div" (.cons (.vtext ("Hello, " ++ name ++ "!")) .nil)) [] none false)

/-- The spec's end-to-end example tree: three `Hello` children under a
wrapping `div`, nothing suspending. -/
def exHello : VNode :=
  .vtag (.other "div"
    (.cons (exHelloChild "Jane") (.cons (exHelloChild "John")
      (.cons (exHelloChild "Josh") .nil)))) [] none false

/-- A tree whose top-level pass pushes two blockers:
`A`, a suspended component resolving to `X`, `B`, a suspended component
resolving to `Y`, `C`.  Document order of the content is `AXBYC`. -/
def exC1 : VNode :=
  .vlist (.cons (.vtext "A") (.cons (.vcomp true "CX" (.vtext "X"))
    (.cons (.vtext "B") (.cons (.vcomp true "CY" (.vtext "Y"))
      (.cons (.vtext "C") .nil)))))

/-- A tree with a nested suspension (a suspended component whose resolved
view again suspends) next to a second suspended sibling; draining the
first blocker shelves the second.  Document order of the content is
`XY`. -/
def exC3 : VNode :=
  .vlist (.cons (.vcomp true "S1" (.vcomp true "S1a" (.vtext "X")))
    (.cons (.vcomp true "S2" (.vtext "Y")) .nil))

/-- The hydratable naive pass produces the plain naive pass's chunks with
only sentinel-marker chunks inserted (or both passes fail identically). -/
def NaiveModes (x y : Except RenderPanic (List String)) : Prop :=
  (∃ e, x = .error e ∧ y = .error e) ∨
  (∃ cs cs', x = .ok cs ∧ y = .ok cs' ∧ InsertOnly IsMarkerChunk cs cs')

/-! ## Round-trip lemmas for the escaping functions -/

theorem decodeHtmlList_cons_ne (c : Char) (l : List Char) (h : c ≠ '&') :
    decodeHtmlList (c :: l) = c :: decodeHtmlList l :=
  decodeHtmlList.eq_5 c l (fun _ hc _ => h hc) (fun _ hc _ => h hc)
    (fun _ hc _ => h hc) (fun _ hc _ => h hc)

theorem decode_encodeTextList (l : List Char) :
    decodeHtmlList (encodeTextList l) = l := by
  induction l with
  | nil => rfl
  | cons c rest ih =>
    rw [encodeTextList, encodeTextChar]
    by_cases h1 : c = '&'
    · subst h1
      rw [if_pos rfl]
      show decodeHtmlList ('&' :: 'a' :: 'm' :: 'p' :: ';' :: encodeTextList rest) = _
      rw [show ∀ t, decodeHtmlList ('&' :: 'a' :: 'm' :: 'p' :: ';' ::t) = '&' :: decodeHtmlList t
            from fun _ => rfl, ih]
    · rw [if_neg h1]
      by_cases h2 : c = '<'
      · subst h2
        rw [if_pos rfl]
        show decodeHtmlList ('&' :: 'l' :: 't' :: ';' :: encodeTextList rest) = _
        rw [show ∀ t, decodeHtmlList ('&' :: 'l' :: 't' :: ';' ::t) = '<' :: decodeHtmlList t
              from fun _ => rfl, ih]
      · rw [if_neg h2]
        by_cases h3 : c = '>'
        · subst h3
          rw [if_pos rfl]
          show decodeHtmlList ('&' :: 'g' :: 't' :: ';' :: encodeTextList rest) = _
          rw [show ∀ t, decodeHtmlList ('&' :: 'g' :: 't' :: ';' ::t) = '>' :: decodeHtmlList t
                from fun _ => rfl, ih]
        · rw [if_neg h3]
          show decodeHtmlList (c :: encodeTextList rest) = _
          rw [decodeHtmlList_cons_ne c _ h1, ih]

theorem decode_encodeAttrList (l : List Char) :
    decodeHtmlList (encodeAttrList l) = l := by
  induction l with
  | nil => rfl
  | cons c rest ih =>
    rw [encodeAttrList, encodeAttrChar]
    by_cases h1 : c = '&'
    · subst h1
      rw [if_pos rfl]
      show decodeHtmlList ('&' :: 'a' :: 'm' :: 'p' :: ';' :: encodeAttrList rest) = _
      rw [show ∀ t, decodeHtmlList ('&' :: 'a' :: 'm' :: 'p' :: ';' ::t) = '&' :: decodeHtmlList t
            from fun _ => rfl, ih]
    · rw [if_neg h1]
      by_cases h2 : c = '"'
      · subst h2
        rw [if_pos rfl]
        show decodeHtmlList ('&' :: 'q' :: 'u' :: 'o' :: 't' :: ';' :: encodeAttrList rest) = _
        rw [show ∀ t, decodeHtmlList ('&' :: 'q' :: 'u' :: 'o' :: 't' :: ';' ::t) = '"' :: decodeHtmlList t
              from fun _ => rfl, ih]
      · rw [if_neg h2]
        show decodeHtmlList (c :: encodeAttrList rest) = _
        rw [decodeHtmlList_cons_ne c _ h1, ih]

theorem decode_encode_text (s : String) : decodeHtml (encode_text s) = s := by
  rw [encode_text, decodeHtml]
  show (⟨decodeHtmlList (String.toList ⟨encodeTextList s.toList⟩)⟩ : String) = s
  rw [show String.toList (⟨encodeTextList s.toList⟩ : String) = encodeTextList s.toList from rfl,
    decode_encodeTextList]
  cases s
  rfl

theorem decode_encode_attr (s : String) :
    decodeHtml (encode_double_quoted_attribute s) = s := by
  rw [encode_double_quoted_attribute, decodeHtml]
  show (⟨decodeHtmlList (String.toList ⟨encodeAttrList s.toList⟩)⟩ : String) = s
  rw [show String.toList (⟨encodeAttrList s.toList⟩ : String) = encodeAttrList s.toList from rfl,
    decode_encodeAttrList]
  cases s
  rfl

/-! ## Sink routing lemmas -/

theorem pushChunk_empty (w : SsrSink) (c : String) (h : w.current_blockers = []) :
    w.pushChunk c = { w with output := w.output ++ [c] } := by
  simp [SsrSink.pushChunk, h]

theorem pushChunk_nonempty (w : SsrSink) (c : String) (h : w.current_blockers ≠ []) :
    w.pushChunk c = { w with buffer := w.buffer ++ [c] } := by
  simp [SsrSink.pushChunk, h]

theorem pushChunks_empty (w : SsrSink) (cs : List String) (h : w.current_blockers = []) :
    w.pushChunks cs = { w with output := w.output ++ cs } := by
  induction cs generalizing w with
  | nil => simp [SsrSink.pushChunks]
  | cons c rest ih =>
    have hstep := ih { w with output := w.output ++ [c] } h
    rw [show w.pushChunks (c :: rest) = (w.pushChunk c).pushChunks rest from rfl,
      pushChunk_empty w c h, hstep]
    simp

/-! ## Bridge: streaming render of a non-suspending tree equals the naive pass -/
mutual

theorem bridgeNode : ∀ (n : VNode), n.noSuspend = true →
    ∀ (out buf : List String) (q : List (List Blocker)) (hyd : Bool),
    VNode.render_to_string n ⟨out, buf, [], q, hyd⟩
      = (naiveNode n hyd).map (fun cs => ⟨out ++ cs, buf, [], q, hyd⟩)
  | .vtext t, _, out, buf, q, hyd => by
    simp [VNode.render_to_string, naiveNode, SsrSink.push_text, Except.map,
      SsrSink.pushChunk]
  | .vtag .input attrs value checked, _, out, buf, q, hyd => by
    simp [VNode.render_to_string, naiveNode, Except.map,
      pushChunks_empty ⟨out, buf, [], q, hyd⟩ _ rfl]
  | .vtag .textarea attrs value checked, _, out, buf, q, hyd => by
    cases value with
    | none =>
      simp [VNode.render_to_string, naiveNode, Except.map, SsrSink.push_str,
        pushChunks_empty ⟨out, buf, [], q, hyd⟩ _ rfl, SsrSink.pushChunk]
    | some m =>
      simp [VNode.render_to_string, naiveNode, Except.map, SsrSink.push_str,
        SsrSink.push_text, pushChunks_empty ⟨out, buf, [], q, hyd⟩ _ rfl,
        SsrSink.pushChunk]
  | .vtag (.other tag children) attrs value checked, hns, out, buf, q, hyd => by
    have hns' : children.noSuspend = true := by
      simpa [VNode.noSuspend] using hns
    by_cases hv : VOID_ELEMENTS.contains tag
    · have hm : tag ∈ VOID_ELEMENTS := by simpa using hv
      by_cases hc : children = .nil
      · subst hc
        simp [VNode.render_to_string, naiveNode, hv, hm, Except.map,
          pushChunks_empty ⟨out, buf, [], q, hyd⟩ _ rfl]
      · simp [VNode.render_to_string, naiveNode, hv, hm, hc, Except.map]
    · have ihl := bridgeList children hns'
        (out ++ vtagOpenChunks (.other tag children) attrs value checked) buf q hyd
      simp only [VNode.render_to_string, naiveNode, hv, Bool.false_eq_true, if_false,
        pushChunks_empty ⟨out, buf, [], q, hyd⟩ _ rfl]
      rw [ihl]
      cases hnl : naiveList children hyd with
      | error e => simp [hnl, Except.map]
      | ok cs => simp [hnl, Except.map, SsrSink.push_str, SsrSink.pushChunk]
  | .vcomp suspended tn view, hns, out, buf, q, hyd => by
    have hsusp : suspended = false := by
      cases suspended
      · rfl
      · simp [VNode.noSuspend] at hns
    subst hsusp
    have hnsv : view.noSuspend = true := by
      simpa [VNode.noSuspend] using hns
    cases hyd with
    | true =>
      have ihv := bridgeNode view hnsv (out ++ [componentOpenMarker tn]) buf q true
      simp only [VNode.render_to_string, Bool.false_eq_true, if_false, if_true,
        SsrSink.push_str, SsrSink.pushChunk, List.isEmpty_nil, show
          (⟨out, buf, [], q, true⟩ : SsrSink).hydratable = true from rfl]
      rw [show (⟨out ++ [componentOpenMarker tn], buf, [], q, true⟩ : SsrSink)
            = ⟨out ++ [componentOpenMarker tn], buf, [], q, true⟩ from rfl, ihv]
      cases hnv : naiveNode view true with
      | error e => simp [naiveNode, hnv, Except.map]
      | ok cs => simp [naiveNode, hnv, Except.map, SsrSink.pushChunk]
    | false =>
      have ihv := bridgeNode view hnsv out buf q false
      simp only [VNode.render_to_string, Bool.false_eq_true, if_false]
      rw [ihv]
      cases hnv : naiveNode view false with
      | error e => simp [naiveNode, hnv, Except.map]
      | ok cs => simp [naiveNode, hnv, Except.map]
  | .vlist children, hns, out, buf, q, hyd => by
    have hns' : children.noSuspend = true := by simpa [VNode.noSuspend] using hns
    have ihl := bridgeList children hns' out buf q hyd
    simp only [VNode.render_to_string, naiveNode]
    exact ihl
  | .vref, _, out, buf, q, hyd => by
    simp [VNode.render_to_string, naiveNode, Except.map]
  | .vportal, _, out, buf, q, hyd => by
    simp [VNode.render_to_string, naiveNode, Except.map]
  | .vsuspense children, hns, out, buf, q, hyd => by
    have hnsv : children.noSuspend = true := by simpa [VNode.noSuspend] using hns
    cases hyd with
    | true =>
      have ihv := bridgeNode children hnsv (out ++ [suspenseOpenMarker]) buf q true
      simp only [VNode.render_to_string, if_true, SsrSink.push_str, SsrSink.pushChunk,
        List.isEmpty_nil, show (⟨out, buf, [], q, true⟩ : SsrSink).hydratable = true from rfl]
      rw [ihv]
      cases hnv : naiveNode children true with
      | error e => simp [naiveNode, hnv, Except.map]
      | ok cs => simp [naiveNode, hnv, Except.map, SsrSink.pushChunk]
    | false =>
      have ihv := bridgeNode children hnsv out buf q false
      simp only [VNode.render_to_string]
      rw [show (if (⟨out, buf, [], q, false⟩ : SsrSink).hydratable
            then SsrSink.push_str ⟨out, buf, [], q, false⟩ suspenseOpenMarker
            else ⟨out, buf, [], q, false⟩) = (⟨out, buf, [], q, false⟩ : SsrSink) from rfl]
      rw [ihv]
      cases hnv : naiveNode children false with
      | error e => simp [naiveNode, hnv, Except.map]
      | ok cs => simp [naiveNode, hnv, Except.map]

theorem bridgeList : ∀ (l : VList), l.noSuspend = true →
    ∀ (out buf : List String) (q : List (List Blocker)) (hyd : Bool),
    VList.render_to_string l ⟨out, buf, [], q, hyd⟩
      = (naiveList l hyd).map (fun cs => ⟨out ++ cs, buf, [], q, hyd⟩)
  | .nil, _, out, buf, q, hyd => by
    simp [VList.render_to_string, naiveList, Except.map]
  | .cons head tail, hns, out, buf, q, hyd => by
    have hh : head.noSuspend = true := by
      simp [VList.noSuspend] at hns
      exact hns.1
    have ht : tail.noSuspend = true := by
      simp [VList.noSuspend] at hns
      exact hns.2
    have ihh := bridgeNode head hh out buf q hyd
    simp only [VList.render_to_string]
    rw [ihh]
    cases hnh : naiveNode head hyd with
    | error e => simp [hnh, Except.map, naiveList]
    | ok cs =>
      have iht := bridgeList tail ht (out ++ cs) buf q hyd
      simp only [hnh, Except.map]
      rw [iht]
      cases hnt : naiveList tail hyd with
      | error e => simp [hnt, Except.map, naiveList, hnh]
      | ok cs' => simp [hnt, Except.map, naiveList, hnh]

end

/-! ## Helper lemmas -/

theorem join_singleton (s : String) : String.join [s] = s := by
  show "" ++ s = s
  cases s
  rfl

theorem renderChunks_eq_naive (t : VNode) (hyd : Bool) (h : t.noSuspend = true) :
    ServerRenderer.render_chunks t hyd = naiveNode t hyd := by
  rw [ServerRenderer.render_chunks, ServerRenderer.render_to_sink,
    show SsrSink.new hyd = ⟨[], [], [], [], hyd⟩ from rfl, bridgeNode t h [] [] [] hyd]
  cases hnv : naiveNode t hyd with
  | error e => simp [Except.map]
  | ok cs =>
    simp [Except.map, SsrSink.run_to_completion, SsrSink.finalFlush]

theorem pushChunks_append (w : SsrSink) (a b : List String) :
    w.pushChunks (a ++ b) = (w.pushChunks a).pushChunks b := by
  simp [SsrSink.pushChunks, List.foldl_append]

theorem hook_set_after_entry (st : PanicHookState) :
    (Renderer.render_hook st).hook_is_set = true := by
  cases hst : st.hook_is_set <;>
    simp [Renderer.render_hook, set_default_panic_hook, hst]

theorem runEntryPoints_set (n : Nat) :
    ∀ (st : PanicHookState), st.hook_is_set = true → runEntryPoints n st = st := by
  induction n with
  | zero => intro st _; rfl
  | succ m ih =>
    intro st h
    rw [runEntryPoints, show Renderer.render_hook st = st from by
      simp [Renderer.render_hook, set_default_panic_hook, h]]
    exact ih st h

theorem InsertOnly.rfl {P : String → Prop} : ∀ xs : List String, InsertOnly P xs xs
  | [] => .nil
  | c :: rest => .keep c (InsertOnly.rfl rest)

theorem InsertOnly.append {P : String → Prop} :
    ∀ {a b c d : List String}, InsertOnly P a b → InsertOnly P c d →
      InsertOnly P (a ++ c) (b ++ d) := by
  intro a b c d h1 h2
  induction h1 with
  | nil => simpa using h2
  | keep x h ih => exact .keep x ih
  | ins x hx h ih => exact .ins x hx ih

theorem isMarker_suspense_open : IsMarkerChunk suspenseOpenMarker := Or.inl rfl

theorem isMarker_suspense_close : IsMarkerChunk suspenseCloseMarker := Or.inr (Or.inl rfl)

theorem isMarker_comp_open (tn : String) : IsMarkerChunk (componentOpenMarker tn) :=
  Or.inr (Or.inr (Or.inl ⟨tn, rfl⟩))

theorem isMarker_comp_close (tn : String) : IsMarkerChunk (componentCloseMarker tn) :=
  Or.inr (Or.inr (Or.inr ⟨tn, rfl⟩))

theorem wrapModes {cs cs' : List String} (m m' : String) (hm : IsMarkerChunk m)
    (hm' : IsMarkerChunk m') (h : InsertOnly IsMarkerChunk cs cs') :
    InsertOnly IsMarkerChunk cs (m :: cs' ++ [m']) := by
  have h2 : InsertOnly IsMarkerChunk cs (cs' ++ [m']) := by
    have := InsertOnly.append h (.ins m' hm' .nil)
    simpa using this
  exact .ins m hm h2

mutual

theorem naiveInsertNode : ∀ (n : VNode), n.noSuspend = true →
    NaiveModes (naiveNode n false) (naiveNode n true)
  | .vtext t, _ => Or.inr ⟨_, _, rfl, rfl, InsertOnly.rfl _⟩
  | .vtag .input attrs value checked, _ => Or.inr ⟨_, _, rfl, rfl, InsertOnly.rfl _⟩
  | .vtag .textarea attrs value checked, _ => Or.inr ⟨_, _, rfl, rfl, InsertOnly.rfl _⟩
  | .vtag (.other tag children) attrs value checked, hns => by
    have hns' : children.noSuspend = true := by simpa [VNode.noSuspend] using hns
    by_cases hv : VOID_ELEMENTS.contains tag
    · have hm : tag ∈ VOID_ELEMENTS := by simpa using hv
      by_cases hc : children = .nil
      · subst hc
        exact Or.inr ⟨vtagOpenChunks (.other tag .nil) attrs value checked,
          vtagOpenChunks (.other tag .nil) attrs value checked,
          by simp [naiveNode, hm], by simp [naiveNode, hm], InsertOnly.rfl _⟩
      · exact Or.inl ⟨.voidChildren tag, by simp [naiveNode, hm, hc],
          by simp [naiveNode, hm, hc]⟩
    · have hm : ¬ tag ∈ VOID_ELEMENTS := by simpa using hv
      rcases naiveInsertList children hns' with ⟨e, h1, h2⟩ | ⟨cs, cs', h1, h2, hins⟩
      · exact Or.inl ⟨e, by simp [naiveNode, hm, h1], by simp [naiveNode, hm, h2]⟩
      · refine Or.inr ⟨vtagOpenChunks (.other tag children) attrs value checked
            ++ (cs ++ ["</" ++ tag ++ ">"]),
          vtagOpenChunks (.other tag children) attrs value checked
            ++ (cs' ++ ["</" ++ tag ++ ">"]),
          by simp [naiveNode, hm, h1], by simp [naiveNode, hm, h2], ?_⟩
        exact InsertOnly.append (InsertOnly.rfl _) (InsertOnly.append hins (InsertOnly.rfl _))
  | .vcomp suspended tn view, hns => by
    have hsusp : suspended = false := by
      cases suspended
      · rfl
      · simp [VNode.noSuspend] at hns
    subst hsusp
    have hnsv : view.noSuspend = true := by simpa [VNode.noSuspend] using hns
    rcases naiveInsertNode view hnsv with ⟨e, h1, h2⟩ | ⟨cs, cs', h1, h2, hins⟩
    · exact Or.inl ⟨e, by simp [naiveNode, h1], by simp [naiveNode, h2]⟩
    · refine Or.inr ⟨cs, componentOpenMarker tn :: cs' ++ [componentCloseMarker tn],
        by simp [naiveNode, h1], by simp [naiveNode, h2], ?_⟩
      exact wrapModes _ _ (isMarker_comp_open tn) (isMarker_comp_close tn) hins
  | .vlist children, hns => by
    have hns' : children.noSuspend = true := by simpa [VNode.noSuspend] using hns
    rcases naiveInsertList children hns' with ⟨e, h1, h2⟩ | ⟨cs, cs', h1, h2, hins⟩
    · exact Or.inl ⟨e, by simp [naiveNode, h1], by simp [naiveNode, h2]⟩
    · exact Or.inr ⟨cs, cs', by simp [naiveNode, h1], by simp [naiveNode, h2], hins⟩
  | .vref, _ => Or.inl ⟨.vrefPanic, rfl, rfl⟩
  | .vportal, _ => Or.inr ⟨[], [], rfl, rfl, .nil⟩
  | .vsuspense children, hns => by
    have hnsv : children.noSuspend = true := by simpa [VNode.noSuspend] using hns
    rcases naiveInsertNode children hnsv with ⟨e, h1, h2⟩ | ⟨cs, cs', h1, h2, hins⟩
    · exact Or.inl ⟨e, by simp [naiveNode, h1], by simp [naiveNode, h2]⟩
    · refine Or.inr ⟨cs, suspenseOpenMarker :: cs' ++ [suspenseCloseMarker],
        by simp [naiveNode, h1], by simp [naiveNode, h2], ?_⟩
      exact wrapModes _ _ isMarker_suspense_open isMarker_suspense_close hins

theorem naiveInsertList : ∀ (l : VList), l.noSuspend = true →
    NaiveModes (naiveList l false) (naiveList l true)
  | .nil, _ => Or.inr ⟨[], [], rfl, rfl, .nil⟩
  | .cons head tail, hns => by
    have hh : head.noSuspend = true := by
      simp [VList.noSuspend] at hns
      exact hns.1
    have ht : tail.noSuspend = true := by
      simp [VList.noSuspend] at hns
      exact hns.2
    rcases naiveInsertNode head hh with ⟨e, h1, h2⟩ | ⟨cs, cs', h1, h2, hins⟩
    · exact Or.inl ⟨e, by simp [naiveList, h1], by simp [naiveList, h2]⟩
    · rcases naiveInsertList tail ht with ⟨e, h3, h4⟩ | ⟨ds, ds', h3, h4, hins'⟩
      · exact Or.inl ⟨e, by simp [naiveList, h1, h3], by simp [naiveList, h2, h4]⟩
      · exact Or.inr ⟨cs ++ ds, cs' ++ ds', by simp [naiveList, h1, h3],
          by simp [naiveList, h2, h4], InsertOnly.append hins hins'⟩

end

/-! ## The claims -/

/-- C1: the claim says that for every tree rendered through the streaming
sink (`render_to_string` followed by `run_to_completion`) the output is in
document order, no byte is written twice, and every blocker pushed by
`push_suspended` is drained exactly once — in particular all blockers in
the current-blockers queue, not only the first.  The code violates this:
`run_to_completion` is a single `if let`, not a loop, so only the front
blocker is drained.  On `exC1` (document order `AXBYC`, two blockers) the
destination receives only `AX`; the second blocker, with its detached
prefix `B`, is still sitting in the current-blockers queue when the pass
ends, and the trailing `C` is stuck in the scratch buffer. -/
theorem c1_second_blocker_never_drained :
    ServerRenderer.render exC1 false = .ok "AX" ∧
    (ServerRenderer.render_to_sink exC1 false).map
        (fun w => (w.current_blockers, w.buffer)) =
      .ok ([(["B"], ⟨"CY", .vtext "Y"⟩)], ["C"]) ∧
    naiveSerialize exC1 false = .ok "AXBYC" := by
  refine ⟨?_, ?_, ?_⟩ <;> rfl

/-- C2: for every tree in which no component suspends (so no `Suspense`
boundary fails to complete synchronously), the byte stream produced by the
streaming sink (`render_to_string` plus `run_to_completion`) equals the
output of a naive single-pass synchronous serializer over the same
tree. -/
theorem c2_stream_equals_naive (t : VNode) (hyd : Bool) (h : t.noSuspend = true) :
    ServerRenderer.render t hyd = naiveSerialize t hyd := by
  rw [ServerRenderer.render, naiveSerialize, renderChunks_eq_naive t hyd h]

/-- Witness for C2 at the spec's end-to-end example tree. -/
theorem c2_witness :
    VNode.noSuspend exHello = true ∧
    ServerRenderer.render exHello false = naiveSerialize exHello false ∧
    ServerRenderer.render exHello false =
      .ok "<div><div>Hello, Jane!</div><div>Hello, John!</div><div>Hello, Josh!</div></div>" :=
  ⟨rfl, c2_stream_equals_naive exHello false rfl, by rfl⟩

/-- C3: the claim says blockers at each depth are drained FIFO and that
nested blockers discovered while draining are fully resolved before the
shelved enclosing queue is restored and resumed.  The code violates this:
since `run_to_completion` runs its body at most once, the blocker pushed
while draining the first blocker (`S1a`) is never resolved, and the
shelved queue holding the sibling blocker (`S2`) is never restored or
drained.  On `exC3` the pass ends with output `""` (document order would
be `XY`), one undrained nested blocker in the current queue and the
sibling still on the shelved-queues stack. -/
theorem c3_shelved_queue_never_drained :
    (ServerRenderer.render_to_sink exC3 false).map
        (fun w => (String.join w.output, w.current_blockers, w.queued_blockers)) =
      .ok ("", [([], ⟨"S1a", .vtext "X"⟩)], [[([], ⟨"S2", .vtext "Y"⟩)]]) ∧
    naiveSerialize exC3 false = .ok "XY" := by
  refine ⟨?_, ?_⟩ <;> rfl

/-- C4: every write performed by the sink goes to the scratch buffer when
the current-blockers queue is non-empty and directly to the output
destination when it is empty (for `push_str`, `push_text` and
`push_double_quoted_attr_value` alike); and when the current-blockers
queue is empty at the terminal step of the pass, the residual scratch
buffer is flushed to the output destination. -/
theorem c4_write_routing (w : SsrSink) (s v : String) :
    (w.current_blockers = [] →
      w.push_str s = { w with output := w.output ++ [s] } ∧
      w.push_text s = { w with output := w.output ++ [encode_text s] } ∧
      w.push_double_quoted_attr_value v
        = { w with output := w.output ++ [encode_double_quoted_attribute v] }) ∧
    (w.current_blockers ≠ [] →
      w.push_str s = { w with buffer := w.buffer ++ [s] } ∧
      w.push_text s = { w with buffer := w.buffer ++ [encode_text s] } ∧
      w.push_double_quoted_attr_value v
        = { w with buffer := w.buffer ++ [encode_double_quoted_attribute v] }) ∧
    (w.current_blockers = [] →
      w.finalFlush = { w with output := w.output ++ w.buffer, buffer := [] }) := by
  refine ⟨fun h => ?_, fun h => ?_, fun h => ?_⟩
  · exact ⟨pushChunk_empty w s h, pushChunk_empty w _ h, pushChunk_empty w _ h⟩
  · exact ⟨pushChunk_nonempty w s h, pushChunk_nonempty w _ h, pushChunk_nonempty w _ h⟩
  · simp [SsrSink.finalFlush, h]

/-- Witness for C4: a write with an empty queue goes to the output, a
write with a non-empty queue goes to the buffer, and the terminal flush
empties the buffer into the output. -/
theorem c4_witness :
    SsrSink.push_str ⟨["o"], ["b"], [], [], false⟩ "x"
        = ⟨["o", "x"], ["b"], [], [], false⟩ ∧
    SsrSink.push_str ⟨["o"], ["b"], [([], ⟨"T", .vtext "t"⟩)], [], false⟩ "x"
        = ⟨["o"], ["b", "x"], [([], ⟨"T", .vtext "t"⟩)], [], false⟩ ∧
    SsrSink.finalFlush ⟨["o"], ["b"], [], [], false⟩ = ⟨["o", "b"], [], [], [], false⟩ :=
  ⟨((c4_write_routing ⟨["o"], ["b"], [], [], false⟩ "x" "y").1 rfl).1,
    ((c4_write_routing ⟨["o"], ["b"], [([], ⟨"T", .vtext "t"⟩)], [], false⟩ "x" "y").2.1
      (by simp)).1,
    (c4_write_routing ⟨["o"], ["b"], [], [], false⟩ "x" "y").2.2 rfl⟩

/-- C5: rendering a `Suspense` boundary with the hydratable flag set wraps
the boundary's content in the matching open and close sentinel comment
markers; with the flag unset the markers are absent; and, for any tree
that renders without suspending, the hydratable output is exactly the
non-hydratable output with only sentinel-marker chunks inserted (identical
visible text content). -/
theorem c5_hydration_markers :
    (∀ (c : VNode) (w : SsrSink), w.hydratable = true →
      VNode.render_to_string (.vsuspense c) w
        = match VNode.render_to_string c (w.push_str suspenseOpenMarker) with
          | .error e => .error e
          | .ok w2 => .ok (w2.push_str suspenseCloseMarker)) ∧
    (∀ (c : VNode) (w : SsrSink), w.hydratable = false →
      VNode.render_to_string (.vsuspense c) w = VNode.render_to_string c w) ∧
    (∀ (t : VNode), t.noSuspend = true → ∀ (o1 o2 : List String),
      ServerRenderer.render_chunks t false = .ok o1 →
      ServerRenderer.render_chunks t true = .ok o2 →
      InsertOnly IsMarkerChunk o1 o2) := by
  refine ⟨fun c w hh => ?_, fun c w hh => ?_, fun t ht o1 o2 h1 h2 => ?_⟩
  · simp only [VNode.render_to_string, hh, if_true]
  · simp only [VNode.render_to_string, hh, Bool.false_eq_true, if_false]
    cases VNode.render_to_string c w <;> rfl
  · rw [renderChunks_eq_naive t false ht] at h1
    rw [renderChunks_eq_naive t true ht] at h2
    rcases naiveInsertNode t ht with ⟨e, he1, _⟩ | ⟨cs, cs', hc1, hc2, hins⟩
    · rw [he1] at h1
      exact absurd h1 (by simp)
    · rw [hc1] at h1
      rw [hc2] at h2
      cases h1
      cases h2
      exact hins

/-- Witness for C5 at a one-text suspense boundary. -/
theorem c5_witness :
    (VNode.render_to_string (.vsuspense (.vtext "x")) ⟨[], [], [], [], true⟩
      = match VNode.render_to_string (.vtext "x")
            (SsrSink.push_str ⟨[], [], [], [], true⟩ suspenseOpenMarker) with
        | .error e => .error e
        | .ok w2 => .ok (w2.push_str suspenseCloseMarker)) ∧
    (VNode.render_to_string (.vsuspense (.vtext "x")) ⟨[], [], [], [], false⟩
      = VNode.render_to_string (.vtext "x") ⟨[], [], [], [], false⟩) ∧
    InsertOnly IsMarkerChunk ["x"] [suspenseOpenMarker, "x", suspenseCloseMarker] :=
  ⟨c5_hydration_markers.1 (.vtext "x") ⟨[], [], [], [], true⟩ rfl,
    c5_hydration_markers.2.1 (.vtext "x") ⟨[], [], [], [], false⟩ rfl,
    c5_hydration_markers.2.2 (.vsuspense (.vtext "x")) rfl
      ["x"] [suspenseOpenMarker, "x", suspenseCloseMarker] rfl rfl⟩

/-- C6: for every tag name in the void set, serializing such a `Tag` node
emits only the open tag — no children and no closing delimiter — and a
void `Tag` node with a non-empty child list trips the programmer-error
assertion before any of those children is serialized. -/
theorem c6_void_elements (tag : String) (attrs : List (String × String))
    (v : Option String) (chk : Bool) (children : VList) (w : SsrSink)
    (h : VOID_ELEMENTS.contains tag = true) :
    (children = .nil →
      VNode.render_to_string (.vtag (.other tag children) attrs v chk) w
        = .ok (w.pushChunks (vtagOpenChunks (.other tag children) attrs v chk))) ∧
    (children ≠ .nil →
      VNode.render_to_string (.vtag (.other tag children) attrs v chk) w
        = .error (.voidChildren tag)) := by
  have hm : tag ∈ VOID_ELEMENTS := by simpa using h
  constructor
  · intro hc
    subst hc
    simp [VNode.render_to_string, hm]
  · intro hc
    simp [VNode.render_to_string, hm, hc]

/-- Witness for C6 at the void tag `br`, childless and with a child. -/
theorem c6_witness :
    VOID_ELEMENTS.contains "br" = true ∧
    VNode.render_to_string (.vtag (.other "br" .nil) [] none false) (SsrSink.new false)
      = .ok ((SsrSink.new false).pushChunks (vtagOpenChunks (.other "br" .nil) [] none false)) ∧
    VNode.render_to_string
        (.vtag (.other "br" (.cons (.vtext "x") .nil)) [] none false) (SsrSink.new false)
      = .error (.voidChildren "br") :=
  ⟨by decide,
    (c6_void_elements "br" [] none false .nil (SsrSink.new false) (by decide)).1 rfl,
    (c6_void_elements "br" [] none false (.cons (.vtext "x") .nil) (SsrSink.new false)
      (by decide)).2 (by decide)⟩

/-- C7: for any input string containing `<`, `>`, `&` or `"`, serializing
it as a `Text` node through the streaming pipeline and HTML-unescaping the
output yields the original string; and the same round-trip holds for the
double-quoted-attribute escaping function. -/
theorem c7_escape_roundtrip (s : String)
    (h : (s.toList.any fun c => c = '<' || c = '>' || c = '&' || c = '"') = true) :
    (ServerRenderer.render (.vtext s) false).map decodeHtml = .ok s ∧
    decodeHtml (encode_double_quoted_attribute s) = s := by
  constructor
  · have hr : ServerRenderer.render (.vtext s) false = .ok (encode_text s) := by
      rw [ServerRenderer.render,
        show ServerRenderer.render_chunks (.vtext s) false = .ok [encode_text s] from rfl]
      simp [Except.map, join_singleton]
    rw [hr]
    simp [Except.map, decode_encode_text]
  · exact decode_encode_attr s

/-- Witness for C7 at a string containing all four special characters. -/
theorem c7_witness :
    (String.toList "a<b&c>\"d").any (fun c => c = '<' || c = '>' || c = '&' || c = '"') = true ∧
    (ServerRenderer.render (.vtext "a<b&c>\"d") false).map decodeHtml = .ok "a<b&c>\"d" ∧
    decodeHtml (encode_double_quoted_attribute "a<b&c>\"d") = "a<b&c>\"d" :=
  ⟨by decide, (c7_escape_roundtrip "a<b&c>\"d" (by decide)).1,
    (c7_escape_roundtrip "a<b&c>\"d" (by decide)).2⟩

/-- C8: serializing a `Ref` node is a fatal logic error (a panic, never a
recoverable value), and serializing a `Portal` node writes nothing at
all — the sink is returned unchanged. -/
theorem c8_vref_vportal (w : SsrSink) :
    VNode.render_to_string .vref w = .error .vrefPanic ∧
    VNode.render_to_string .vportal w = .ok w := ⟨rfl, rfl⟩

/-- C9: once any hook has been installed (the flag is set, whether by an
earlier entry point or by `set_custom_panic_hook`), a later entry point
(`Renderer::render` or `Renderer::hydrate`) leaves the hook state
untouched; `set_custom_panic_hook` always installs its hook and sets the
flag; a first entry point on a fresh state installs the default hook; and
any sequence of `n + 1` entry points is equivalent to the first one alone
(the hook is installed at most once, by whichever entry point runs
first). -/
theorem c9_panic_hook (st : PanicHookState) (h : String) (n : Nat) :
    (st.hook_is_set = true → Renderer.render_hook st = st ∧ Renderer.hydrate_hook st = st) ∧
    ((set_custom_panic_hook h st).installed = some h ∧
      (set_custom_panic_hook h st).hook_is_set = true) ∧
    (st.hook_is_set = false →
      (Renderer.render_hook st).installed = some console_error_panic_hook ∧
      (Renderer.render_hook st).hook_is_set = true) ∧
    runEntryPoints (n + 1) st = Renderer.render_hook st := by
  refine ⟨fun hs => ?_, ⟨rfl, rfl⟩, fun hs => ?_, ?_⟩
  · constructor <;>
      simp [Renderer.render_hook, Renderer.hydrate_hook, set_default_panic_hook, hs]
  · constructor <;> simp [Renderer.render_hook, set_default_panic_hook, hs]
  · rw [runEntryPoints]
    exact runEntryPoints_set n _ (hook_set_after_entry st)

/-- Witness for C9: concrete hook states for each conjunct. -/
theorem c9_witness :
    (Renderer.render_hook ⟨some "custom", true⟩ = ⟨some "custom", true⟩) ∧
    ((set_custom_panic_hook "mine" ⟨some console_error_panic_hook, true⟩).installed
        = some "mine") ∧
    ((Renderer.render_hook ⟨none, false⟩).installed = some console_error_panic_hook) ∧
    runEntryPoints 3 ⟨none, false⟩ = Renderer.render_hook ⟨none, false⟩ :=
  ⟨((c9_panic_hook ⟨some "custom", true⟩ "mine" 2).1 rfl).1,
    (c9_panic_hook ⟨some console_error_panic_hook, true⟩ "mine" 2).2.1.1,
    ((c9_panic_hook ⟨none, false⟩ "mine" 2).2.2.1 rfl).1,
    (c9_panic_hook ⟨none, false⟩ "mine" 2).2.2.2⟩

/-- C10: a `textarea` tag always emits the closing `</textarea>`
delimiter, even with no value; its value is emitted as body text through
the text-body escaping function and never as a `value` attribute (the
open-tag chunks of a textarea contain no value attribute); an `input` tag
emits its value as a double-quoted `value` attribute and emits nothing
after the open tag — no children and no closing tag. -/
theorem c10_textarea_input (attrs : List (String × String)) (v : String) (chk : Bool)
    (w : SsrSink) :
    (VNode.render_to_string (.vtag .textarea attrs (some v) chk) w
      = .ok (w.pushChunks (vtagOpenChunks .textarea attrs (some v) chk
          ++ [encode_text v, "</textarea>"]))) ∧
    (VNode.render_to_string (.vtag .textarea attrs none chk) w
      = .ok (w.pushChunks (vtagOpenChunks .textarea attrs none chk ++ ["</textarea>"]))) ∧
    (vtagOpenChunks .textarea attrs (some v) chk
      = ("<" ++ "textarea") :: (attrChunks attrs ++ [">"])) ∧
    (vtagOpenChunks .input attrs (some v) chk
      = ("<" ++ "input") :: (([" value", "=\"", encode_double_quoted_attribute v, "\""]
          ++ (if chk then [" checked"] else [])) ++ (attrChunks attrs ++ [">"]))) ∧
    (VNode.render_to_string (.vtag .input attrs (some v) chk) w
      = .ok (w.pushChunks (vtagOpenChunks .input attrs (some v) chk))) := by
  refine ⟨?_, ?_, rfl, by simp [vtagOpenChunks, VTagInner.tagName], rfl⟩
  · rw [pushChunks_append]
    rfl
  · rw [pushChunks_append]
    rfl
